import Mathlib

/-!
Shallow embedding of the homework submission flow of the Ottodot LMS review
module (src/lib/homeworkUtils.ts, src/mocks/mockDatabase.ts,
src/pages/student/assignment/[id].tsx), together with theorems settling the
frozen claims about it.

Modelling conventions:
* The asynchronous Supabase gateway calls that a function awaits are embedded
  by passing the outcome of each call explicitly (an oracle), mirroring the
  TypeScript control flow that branches on the returned `data`/`error` pair.
  The mock gateway of src/mocks/mockDatabase.ts (which never errors and only
  persists `homework_responses` upserts) is instantiated separately.
* `JSON.parse` applied to a serialized string array is embedded by an
  executable parser for the whitespace-free JSON that `JSON.stringify`
  emits for string arrays; inputs whose parse throws (or which do not denote
  a string array, which makes the subsequent grading code throw or grade
  false in TypeScript) are mapped to `none`, and the `catch` branch of the
  grader handles them exactly as the source does (incorrect, zero points).
* JavaScript machine numbers used as assignment identifiers are embedded as
  `Int`; the `parseInt`/`isNaN` validation at each function's entry is
  embedded by taking the already-parsed `Option Int` (with `none` standing
  for NaN).
-/

/-! ### JavaScript string primitives used by the grading code -/

/-- Whitespace for JavaScript's `String.prototype.trim`: space, tab, line
terminators, vertical tab, form feed, NBSP, LS, PS, BOM. -/
def jsIsWhitespace (c : Char) : Bool :=
  c == ' ' || c == '\t' || c == '\n' || c == '\r' ||
  c == Char.ofNat 11 || c == Char.ofNat 12 || c == Char.ofNat 0xA0 ||
  c == Char.ofNat 0x2028 || c == Char.ofNat 0x2029 || c == Char.ofNat 0xFEFF

/-- `String.prototype.trim`: drop leading and trailing whitespace. -/
def jsTrim (s : String) : String :=
  ⟨((s.data.dropWhile jsIsWhitespace).reverse.dropWhile jsIsWhitespace).reverse⟩

/-- `String.prototype.toLowerCase`, restricted to the alphabet the module
manipulates (the mapping is applied character by character). -/
def jsToLower (s : String) : String :=
  ⟨s.data.map Char.toLower⟩

/-! ### JSON string-array parsing (`JSON.parse` of a `JSON.stringify` output) -/

/-- Backslash escapes inside a JSON string literal. -/
def jsonEscapeChar (e : Char) : Option Char :=
  if e == '"' then some '"'
  else if e == '\\' then some '\\'
  else if e == '/' then some '/'
  else if e == 'n' then some '\n'
  else if e == 't' then some '\t'
  else if e == 'r' then some '\r'
  else if e == 'b' then some (Char.ofNat 8)
  else if e == 'f' then some (Char.ofNat 12)
  else none

/-- Parse the remainder of a JSON string literal (after its opening quote),
returning the decoded string and the unconsumed input. -/
def parseJsonStr : List Char → Option (String × List Char)
  | [] => none
  | '"' :: rest => some ("", rest)
  | '\\' :: e :: rest =>
      match jsonEscapeChar e with
      | some ch => (parseJsonStr rest).map (fun p => (⟨ch :: p.1.data⟩, p.2))
      | none => none
  | c :: rest => (parseJsonStr rest).map (fun p => (⟨c :: p.1.data⟩, p.2))

/-- Parse the comma-separated string elements of a JSON array up to and
including the closing bracket. The fuel argument bounds recursion by the
input length. -/
def parseJsonElems : Nat → List Char → Option (List String × List Char)
  | 0, _ => none
  | fuel + 1, l =>
    match l with
    | '"' :: rest =>
      match parseJsonStr rest with
      | some (s, after) =>
        match after with
        | ',' :: more => (parseJsonElems fuel more).map (fun p => (s :: p.1, p.2))
        | ']' :: more => some ([s], more)
        | _ => none
      | none => none
    | _ => none

/-- `JSON.parse` of a serialized string array, as produced by
`JSON.stringify` on an array of strings (no interspersed whitespace).
`none` covers both a throwing parse and a value that is not an array of
strings. -/
def parseJsonStringArray (s : String) : Option (List String) :=
  match s.data with
  | ['[', ']'] => some []
  | '[' :: rest =>
    match parseJsonElems s.length rest with
    | some (elems, []) => some elems
    | _ => none
  | _ => none

/-! ### Data model -/

/-- The `correct_answer?: string | string[]` field of a question. -/
inductive CorrectAnswer where
  | str (s : String)
  | arr (l : List String)
  | absent
deriving DecidableEq

/-- The fields of a `HomeworkQuestion` consulted by the business logic of
src/lib/homeworkUtils.ts (prompt text, options and image payloads are
presentation-only and never read by the embedded functions). -/
structure HomeworkQuestion where
  id : String
  question_type : String
  points : Nat
  correct_answer : CorrectAnswer
deriving DecidableEq

/-- A `homework_sessions` row (timestamps omitted; they are write-only in the
embedded flows). -/
structure SessionRow where
  id : String
  student_id : String
  assignment_id : Int
  current_question_index : Nat
  is_completed : Bool
deriving DecidableEq

/-- A Supabase error value, as consulted by the code (`message`, `code`). -/
structure DbErr where
  message : String
  code : String
deriving DecidableEq

/-- One gateway call issued by the embedded functions, in issue order. The
constructors mirror the literal Supabase calls in src/lib/homeworkUtils.ts:
`select...maybeSingle`, `update`, `insert`, `upsert`. -/
inductive GatewayOp where
  | lookupSession (studentId : String) (assignmentId : Int)
  | updateSessionActivity (sessionId : String)
  | insertSession (studentId : String) (assignmentId : Int)
  | updateSessionProgress (sessionId : String) (index : Nat) (isCompleted : Bool)
  | upsertResponse (studentId : String) (questionId : String) (assignmentId : Int)
      (responseText : String)
  | updateSessionCompleted (studentId : String) (assignmentId : Int)
  | upsertSubmission (studentId : String) (assignmentId : Int)
deriving DecidableEq

/-- The `responseData` object built by `saveHomeworkResponse` and passed to
the upsert. -/
structure ResponseData where
  student_id : String
  question_id : String
  assignment_id : Int
  response_text : String
  is_correct : Option Bool
  points_earned : Nat
  session_id : Option String
deriving DecidableEq

/-- The durable state of the mock backend. `responses` embeds
`mockResponsesStorage`, a JavaScript object keyed by question id that the
mock upsert assigns into (src/mocks/mockDatabase.ts:135-145). `sessions`
stands for session storage: no code in src ever writes it (the mock insert
and update persist nothing). -/
structure MockStore where
  sessions : List SessionRow
  responses : List (String × String)
deriving DecidableEq

/-- Assignment `obj[k] = v` on a JavaScript object embedded as an
association list with unique keys: overwrite in place, else append. -/
def recordSet : List (String × String) → String → String → List (String × String)
  | [], k, v => [(k, v)]
  | (k', v') :: rest, k, v =>
      if k' = k then (k, v) :: rest else (k', v') :: recordSet rest k v

/-- Key lookup `obj[k]` on the embedded object. -/
def recordGet : List (String × String) → String → Option String
  | [], _ => none
  | (k', v') :: rest, k => if k' = k then some v' else recordGet rest k

/-- Number of stored records under a key. -/
def countKey (m : List (String × String)) (k : String) : Nat :=
  (m.filter (fun p => p.1 == k)).length

/-! ### Embedded business logic (src/lib/homeworkUtils.ts) -/

/-- The auto-grading section of `saveHomeworkResponse`
(src/lib/homeworkUtils.ts:193-223): derive `(is_correct, points_earned)`
from the question and the raw response text. Multiple-choice compares the
trimmed, lowercased response with the trimmed, lowercased correct answer
(a non-string `correct_answer` is replaced by the empty string). Tickbox
parses the response and the string-typed correct answer as JSON arrays
(`'' || '[]'` turns an empty string into `[]`), builds the two membership
checks over `Set`, and conjoins them; any throw inside the branch is caught
and graded incorrect with zero points. Other question types are ungraded. -/
def autoGrade (question : HomeworkQuestion) (responseText : String) : Option Bool × Nat :=
  if question.question_type = "multiple-choice" then
    let correctAnswer :=
      match question.correct_answer with
      | CorrectAnswer.str s => s
      | _ => ""
    let isCorrect := jsToLower (jsTrim responseText) == jsToLower (jsTrim correctAnswer)
    (some isCorrect, if isCorrect then question.points else 0)
  else if question.question_type = "tickbox" then
    match parseJsonStringArray responseText with
    | none => (some false, 0)
    | some studentAnswers =>
      let correctAnswersQ : Option (List String) :=
        match question.correct_answer with
        | CorrectAnswer.arr l => some l
        | CorrectAnswer.str s => parseJsonStringArray (if s = "" then "[]" else s)
        | CorrectAnswer.absent => some []
      match correctAnswersQ with
      | none => (some false, 0)
      | some correctAnswers =>
        let isCorrect :=
          (correctAnswers.all fun a => studentAnswers.contains a) &&
          (studentAnswers.all fun a => correctAnswers.contains a)
        (some isCorrect, if isCorrect then question.points else 0)
  else (none, 0)

/-- Result of one `saveHomeworkResponse` call: the returned boolean, the
`responseData` handed to the upsert (absent when the id check fails before
any call), the store after the call, and the gateway calls issued. -/
structure SaveOutput where
  success : Bool
  record : Option ResponseData
  store : MockStore
  ops : List GatewayOp
deriving DecidableEq

/-- `saveHomeworkResponse` (src/lib/homeworkUtils.ts:178-254). An invalid
assignment id returns `false` before any gateway call. Otherwise the
response is graded, the `responseData` record is built, and one upsert on
`homework_responses` (conflict key `student_id,question_id,assignment_id`)
is issued; `upsertError` is that call's outcome. On success the mock store
assigns `responses[questionId] := responseText`
(src/mocks/mockDatabase.ts:135-145); on error the function returns `false`
after `console.error` — there is no retry and no further effect. -/
def saveHomeworkResponse (studentId questionId : String) (assignmentIdNum : Option Int)
    (responseText : String) (question : HomeworkQuestion) (sessionId : Option String)
    (upsertError : Option String) (store : MockStore) : SaveOutput :=
  match assignmentIdNum with
  | none => { success := false, record := none, store := store, ops := [] }
  | some aid =>
    let graded := autoGrade question responseText
    let responseData : ResponseData :=
      { student_id := studentId, question_id := questionId, assignment_id := aid,
        response_text := responseText, is_correct := graded.1, points_earned := graded.2,
        session_id := sessionId }
    let ops := [GatewayOp.upsertResponse studentId questionId aid responseText]
    match upsertError with
    | some _ => { success := false, record := some responseData, store := store, ops := ops }
    | none =>
        { success := true, record := some responseData,
          store := { store with responses := recordSet store.responses questionId responseText },
          ops := ops }

/-- The component state of the assignment page touched by `handleAnswer`
(src/pages/student/assignment/[id].tsx): the local `answers` cache and the
user-visible `error` banner state. -/
structure PageState where
  answers : List (String × String)
  error : Option String
deriving DecidableEq

/-- `handleAnswer` (src/pages/student/assignment/[id].tsx:129-153):
optimistically write the answer into the local `answers` map, then (when a
user is present) call `saveHomeworkResponse`; a failed save is only
`console.warn`-ed — the `error` state is not written on any path. -/
def handleAnswer (user : Option String) (question : HomeworkQuestion)
    (assignmentIdNum : Option Int) (sessionId : String) (answer : String)
    (upsertError : Option String) (st : PageState) (store : MockStore) :
    PageState × MockStore :=
  let st1 : PageState := { st with answers := recordSet st.answers question.id answer }
  match user with
  | none => (st1, store)
  | some uid =>
      let out := saveHomeworkResponse uid question.id assignmentIdNum answer question
        (some sessionId) upsertError store
      (st1, out.store)

/-- Outcome of the session point lookup awaited by
`getOrCreateHomeworkSession`: the `data`/`error` pair of `maybeSingle`. -/
structure SessionLookupOutcome where
  data : Option SessionRow
  error : Option DbErr
deriving DecidableEq

/-- Outcomes of the gateway calls `getOrCreateHomeworkSession` can issue:
the lookup outcome and the insert's returned row and error. -/
structure SessionEnv where
  lookup : SessionLookupOutcome
  insertData : Option SessionRow
  insertError : Option DbErr
deriving DecidableEq

/-- `getOrCreateHomeworkSession` (src/lib/homeworkUtils.ts:118-170). An
invalid id returns `null` with no call. Otherwise one point lookup on
(student_id, assignment_id) is issued; if it yields a row and no error, the
session's `last_activity` is touched and the row returned. On anything else
— including a transient lookup error — the function proceeds directly
(after at most a `console.error`) to a bare `.insert` of a fresh session
with index 0, and returns the insert's row (or `null` on insert error).
There is no retry of the lookup and no conditional/upsert creation. -/
def getOrCreateHomeworkSession (studentId : String) (assignmentIdNum : Option Int)
    (env : SessionEnv) : Option SessionRow × List GatewayOp :=
  match assignmentIdNum with
  | none => (none, [])
  | some aid =>
    match env.lookup.data, env.lookup.error with
    | some existing, none =>
        (some existing,
         [GatewayOp.lookupSession studentId aid, GatewayOp.updateSessionActivity existing.id])
    | _, _ =>
        let ops := [GatewayOp.lookupSession studentId aid, GatewayOp.insertSession studentId aid]
        match env.insertError with
        | some _ => (none, ops)
        | none => (env.insertData, ops)

/-- `updateHomeworkSessionProgress` (src/lib/homeworkUtils.ts:261-291): one
update on the session row, returning `false` exactly when the gateway
reports an error. -/
def updateHomeworkSessionProgress (sessionId : String) (currentQuestionIndex : Nat)
    (isCompleted : Bool) (updateError : Option String) : Bool × List GatewayOp :=
  ((match updateError with | some _ => false | none => true),
   [GatewayOp.updateSessionProgress sessionId currentQuestionIndex isCompleted])

/-- Outcomes of the two gateway calls of `submitHomeworkAssignment`. -/
structure SubmitEnv where
  sessionUpdateError : Option String
  submissionUpsertError : Option String
deriving DecidableEq

/-- Result of one `submitHomeworkAssignment` call. -/
structure SubmitOutput where
  success : Bool
  store : MockStore
  ops : List GatewayOp
deriving DecidableEq

/-- `submitHomeworkAssignment` (src/lib/homeworkUtils.ts:311-354). An
invalid id returns `false` with no call. Otherwise it FIRST issues the
session-completion update (an error there is only logged — "Continue
anyway"), and only THEN the submission upsert; a submission error returns
`false`. The mock gateway persists neither call (its upsert only stores
`homework_responses`), so the store passes through unchanged. -/
def submitHomeworkAssignment (studentId : String) (assignmentIdNum : Option Int)
    (env : SubmitEnv) (store : MockStore) : SubmitOutput :=
  match assignmentIdNum with
  | none => { success := false, store := store, ops := [] }
  | some aid =>
    let ops := [GatewayOp.updateSessionCompleted studentId aid,
                GatewayOp.upsertSubmission studentId aid]
    match env.submissionUpsertError with
    | some _ => { success := false, store := store, ops := ops }
    | none => { success := true, store := store, ops := ops }

/-- `getStudentHomeworkResponsesMap` (src/lib/homeworkUtils.ts:296-304):
returns `{ ...mockResponsesStorage }` — a shallow copy of the module-level
response store. Neither `studentId` nor `assignmentId` is read. -/
def getStudentHomeworkResponsesMap (studentId : String) (assignmentId : Option Int)
    (store : MockStore) : List (String × String) :=
  store.responses

/-! ### The mock gateway (src/mocks/mockDatabase.ts) -/

/-- The prefabricated `mockSession` constant of mockAssignment.ts (shipped
in src as the third segment of src/lib/supabaseClient.ts): the fields of
the modelled `SessionRow`, verbatim from the source (timestamps omitted as
in the rest of the model). -/
def mockSession : SessionRow :=
  { id := "session-123-uuid", student_id := "student-user-123", assignment_id := 1,
    current_question_index := 0, is_completed := false }

/-- The row the mock insert returns for `homework_sessions`:
`{ ...mockSession, ...data }` (src/mocks/mockDatabase.ts:110-123) — the
inserted fields overwrite the mock constant; the `id`, absent from the
inserted data, stays `mockSession.id` ("session-123-uuid"). Nothing is
persisted. -/
def mockInsertSessionResult (studentId : String) (aid : Int) : SessionRow :=
  { mockSession with
      student_id := studentId, assignment_id := aid,
      current_question_index := 0, is_completed := false }

/-- The member names of the builder returned by the mock select's `.eq`
(src/mocks/mockDatabase.ts:67-104): `single`, `maybeSingle`, `limit`,
`order` — and, decisively, no `eq`. -/
def mockEqBuilderMembers : List String := ["single", "maybeSingle", "limit", "order"]

/-- The session lookup chain of `getOrCreateHomeworkSession`
(src/lib/homeworkUtils.ts:127-131) evaluated against the mock gateway. The
code chains a SECOND `.eq` onto the builder returned by the first; in
JavaScript, reading a member an object lacks yields `undefined` and calling
it throws `TypeError`, so with `eq` absent from the builder's members the
chain throws before producing any outcome (`none`). Were the member
present, `maybeSingle` would resolve to the fixed `mockSession`
(src/mocks/mockDatabase.ts:82-88). -/
def mockLookupSessionChain : Option SessionLookupOutcome :=
  if "eq" ∈ mockEqBuilderMembers then some { data := some mockSession, error := none }
  else none

/-- `getOrCreateHomeworkSession` run against the actual mock gateway. The
lookup chain throws (see `mockLookupSessionChain`), and the function's
try/catch (src/lib/homeworkUtils.ts:166-169) converts the synchronous
`TypeError` into a `null` result: no gateway call completes, nothing is
written, and no session — existing or fresh — is ever returned. The other
branch shows the run that would occur if the chain produced an outcome. -/
def runGetOrCreateMock (studentId : String) (assignmentIdNum : Option Int)
    (store : MockStore) : (Option SessionRow × List GatewayOp) × MockStore :=
  match mockLookupSessionChain with
  | none => ((none, []), store)
  | some outcome =>
      (getOrCreateHomeworkSession studentId assignmentIdNum
         { lookup := outcome,
           insertData := some (mockInsertSessionResult studentId (assignmentIdNum.getD 0)),
           insertError := none },
       store)

/-- `updateHomeworkSessionProgress` run against the mock gateway: the update
reports success and persists nothing (src/mocks/mockDatabase.ts:125-133). -/
def runUpdateProgressMock (sessionId : String) (idx : Nat) (isCompleted : Bool)
    (store : MockStore) : Bool × MockStore :=
  ((updateHomeworkSessionProgress sessionId idx isCompleted none).1, store)

/-- The page's `currentQuestion` state after the load effect
(src/pages/student/assignment/[id].tsx:85-94): initialized by `useState(0)`
and set to the session's stored index only when
`getOrCreateHomeworkSession` returned one. -/
def resumedQuestionIndex (sessionData : Option SessionRow) : Nat :=
  match sessionData with
  | some s => s.current_question_index
  | none => 0

/-- An empty backend state, used as the concrete starting point of the
closed runs below. -/
def emptyStore : MockStore := { sessions := [], responses := [] }

/-- A short-answer question (no auto-grading), used by the concrete runs. -/
def shortQ : HomeworkQuestion :=
  { id := "q1", question_type := "short-answer", points := 1,
    correct_answer := CorrectAnswer.absent }

/-! ### Store lemmas -/

/-- Reading back the key just assigned yields the assigned value. -/
theorem recordGet_recordSet_self (m : List (String × String)) (k v : String) :
    recordGet (recordSet m k v) k = some v := by
  induction m with
  | nil => simp [recordSet, recordGet]
  | cons hd tl ih =>
    by_cases h : hd.1 = k
    · simp [recordSet, recordGet, h]
    · simpa [recordSet, recordGet, h] using ih

/-- Assigning the same key/value twice equals assigning it once. -/
theorem recordSet_idem (m : List (String × String)) (k v : String) :
    recordSet (recordSet m k v) k v = recordSet m k v := by
  induction m with
  | nil => simp [recordSet]
  | cons hd tl ih =>
    by_cases h : hd.1 = k
    · simp [recordSet, h]
    · simp [recordSet, h, ih]

/-- A key absent from the record has no stored entries. -/
theorem countKey_eq_zero_of_not_mem (m : List (String × String)) (k : String)
    (h : k ∉ m.map Prod.fst) : countKey m k = 0 := by
  induction m with
  | nil => simp [countKey]
  | cons hd tl ih =>
    simp only [List.map_cons, List.mem_cons, not_or] at h
    have hne : ¬ (hd.1 == k) = true := by
      simpa [beq_iff_eq] using fun he => h.1 he.symm
    simpa [countKey, List.filter_cons, hne] using ih h.2

/-- On a record with pairwise-distinct keys, an assignment leaves exactly one
entry under the assigned key. -/
theorem countKey_recordSet (m : List (String × String)) (k v : String)
    (h : (m.map Prod.fst).Nodup) : countKey (recordSet m k v) k = 1 := by
  induction m with
  | nil => simp [recordSet, countKey]
  | cons hd tl ih =>
    simp only [List.map_cons, List.nodup_cons] at h
    by_cases hk : hd.1 = k
    · have : countKey tl k = 0 :=
        countKey_eq_zero_of_not_mem tl k (by rw [← hk]; exact h.1)
      simp [recordSet, countKey, hk, List.filter_cons] at this ⊢
      simpa [countKey] using this
    · have hne : ¬ (hd.1 == k) = true := by simpa [beq_iff_eq] using hk
      simpa [recordSet, countKey, hk, List.filter_cons, hne] using ih h.2

/-! ### Set-equality lemmas for tickbox grading -/

/-- Membership test via `Set`/`contains` agrees with list membership. -/
theorem containsIffMem (l : List String) (a : String) : l.contains a = true ↔ a ∈ l := by
  simp [List.elem_iff]

/-- The grader's two membership checks (`hasAllCorrect && hasNoIncorrect`)
hold exactly when the two answer lists denote the same set. -/
theorem mutualContains_iff_toFinset_eq (studentAnswers correctAnswers : List String) :
    (((correctAnswers.all fun a => studentAnswers.contains a) &&
      (studentAnswers.all fun a => correctAnswers.contains a)) = true) ↔
    studentAnswers.toFinset = correctAnswers.toFinset := by
  rw [Bool.and_eq_true, List.all_eq_true, List.all_eq_true]
  constructor
  · rintro ⟨h1, h2⟩
    apply Finset.Subset.antisymm <;> intro x hx <;> rw [List.mem_toFinset] at hx ⊢
    · exact (containsIffMem _ _).mp (h2 x hx)
    · exact (containsIffMem _ _).mp (h1 x hx)
  · intro h
    constructor <;> intro x hx
    · refine (containsIffMem _ _).mpr ?_
      have hx2 : x ∈ correctAnswers.toFinset := List.mem_toFinset.mpr hx
      rw [← h] at hx2
      exact List.mem_toFinset.mp hx2
    · refine (containsIffMem _ _).mpr ?_
      have hx2 : x ∈ studentAnswers.toFinset := List.mem_toFinset.mpr hx
      rw [h] at hx2
      exact List.mem_toFinset.mp hx2

/-- Transport an `if` on a boolean across an equivalent proposition. -/
theorem iteCongrOfIff {α : Sort _} {b : Bool} {P : Prop} [Decidable P]
    (h : (b = true) ↔ P) (x y : α) : (if b then x else y) = if P then x else y := by
  by_cases hp : P
  · rw [if_pos (h.mpr hp), if_pos hp]
  · have hb : ¬ b = true := fun hbt => hp (h.mp hbt)
    rw [if_neg hb, if_neg hp]

/-! ### Predicates on gateway operations -/

/-- The operation is a bare `.insert` on `homework_sessions`. -/
def isSessionInsertOp : GatewayOp → Bool
  | GatewayOp.insertSession _ _ => true
  | _ => false

/-- The operation is a conditional write (`.upsert` with a conflict key);
the only upserts the module ever issues are on `homework_responses` and
`submissions` — none on `homework_sessions`. -/
def isUpsertOp : GatewayOp → Bool
  | GatewayOp.upsertResponse _ _ _ _ => true
  | GatewayOp.upsertSubmission _ _ => true
  | _ => false

/-- The gateway outcomes of a first load: the lookup finds no session
(`data = null`, no error) and the insert succeeds with the mock's merged
row. -/
def firstLoadEnvFor (studentId : String) (aid : Int) : SessionEnv :=
  { lookup := { data := none, error := none },
    insertData := some (mockInsertSessionResult studentId aid),
    insertError := none }

/-! ### Claims -/

/-- Claim C1 (code_bug): the claimed bounded retry with exponential backoff
and user-visible failure surfacing do not exist in the code. At the failing
input — the single gateway upsert of `saveHomeworkResponse` fails — the
call returns `false` after issuing exactly ONE write (no retry), leaves the
store untouched, and the caller `handleAnswer` keeps only the optimistic
local answer while the user-visible `error` state stays `none`: the failure
is `console.warn`-ed, not surfaced. -/
theorem c1_save_failure_single_attempt_and_silent :
    (saveHomeworkResponse "student-1" "q1" (some 1) "my answer" shortQ (some "mock-session-1")
        (some "Network timeout - simulated failure") emptyStore).success = false ∧
    (saveHomeworkResponse "student-1" "q1" (some 1) "my answer" shortQ (some "mock-session-1")
        (some "Network timeout - simulated failure") emptyStore).ops =
      [GatewayOp.upsertResponse "student-1" "q1" 1 "my answer"] ∧
    (saveHomeworkResponse "student-1" "q1" (some 1) "my answer" shortQ (some "mock-session-1")
        (some "Network timeout - simulated failure") emptyStore).store = emptyStore ∧
    (handleAnswer (some "student-1") shortQ (some 1) "mock-session-1" "my answer"
        (some "Network timeout - simulated failure")
        { answers := [], error := none } emptyStore).1.error = none ∧
    (handleAnswer (some "student-1") shortQ (some 1) "mock-session-1" "my answer"
        (some "Network timeout - simulated failure")
        { answers := [], error := none } emptyStore).1.answers = [("q1", "my answer")] :=
  ⟨rfl, rfl, rfl, rfl, rfl⟩

/-- Claim C2 (code_bug): at the failing input — the submission upsert fails
— `submitHomeworkAssignment` does return `false`, but its gateway trace
shows the session-completion update is issued FIRST, before the submission
record write, and it is issued unconditionally (the code continues past a
completion error); the claimed ordering "session-completed write is not
performed before the submission record succeeds" is violated. -/
theorem c2_submit_completion_write_precedes_submission :
    (submitHomeworkAssignment "student-1" (some 1)
        { sessionUpdateError := none,
          submissionUpsertError := some "Network timeout - simulated failure" }
        emptyStore).success = false ∧
    (submitHomeworkAssignment "student-1" (some 1)
        { sessionUpdateError := none,
          submissionUpsertError := some "Network timeout - simulated failure" }
        emptyStore).ops =
      [GatewayOp.updateSessionCompleted "student-1" 1,
       GatewayOp.upsertSubmission "student-1" 1] :=
  ⟨rfl, rfl⟩

/-- Claim C3 counterexample: on a first load (lookup finds no session), the
creation write `getOrCreateHomeworkSession` issues is the bare insert
`GatewayOp.insertSession` — no upsert/conditional write on the composite
key is ever issued — refuting the claim's stated mechanism ("a
conditional/idempotent write on the composite key rather than a bare
insert"). -/
theorem c3_counterexample_creation_is_bare_insert :
    ((getOrCreateHomeworkSession "student-1" (some 1) (firstLoadEnvFor "student-1" 1)).2 =
      [GatewayOp.lookupSession "student-1" 1, GatewayOp.insertSession "student-1" 1]) ∧
    ((getOrCreateHomeworkSession "student-1" (some 1) (firstLoadEnvFor "student-1" 1)).2.filter
        isSessionInsertOp = [GatewayOp.insertSession "student-1" 1]) ∧
    ((getOrCreateHomeworkSession "student-1" (some 1) (firstLoadEnvFor "student-1" 1)).2.filter
        isUpsertOp = []) :=
  ⟨rfl, rfl, rfl⟩

/-- Claim C3 as amended: session creation in `getOrCreateHomeworkSession`
is issued as a bare insert — never a conditional/idempotent upsert on the
composite key — and against the actual mock gateway the two-`.eq` lookup
chain throws before producing any outcome, so every `getOrCreate` call (any
student, assignment, store) returns `null` with no gateway call completed
and no store write: no call yields a session at all, hence no two calls
yield distinct sessions for a pair and the session store never gains a row
(at-most-one-row holds vacuously). -/
theorem c3_amended_identity_and_bare_insert (s t : String) (a : Option Int) (n : Int)
    (store : MockStore) :
    (runGetOrCreateMock s a store).1.1 = none ∧
    (runGetOrCreateMock t a store).1.1 = none ∧
    (runGetOrCreateMock s a store).1.1 = (runGetOrCreateMock t a store).1.1 ∧
    (runGetOrCreateMock s a store).1.2 = [] ∧
    (runGetOrCreateMock s a store).2 = store ∧
    (getOrCreateHomeworkSession s (some n) (firstLoadEnvFor s n)).2.filter isSessionInsertOp =
      [GatewayOp.insertSession s n] ∧
    (getOrCreateHomeworkSession s (some n) (firstLoadEnvFor s n)).2.filter isUpsertOp = [] :=
  ⟨rfl, rfl, rfl, rfl, rfl, rfl, rfl⟩

/-- The gateway outcomes at C4's failing input: the point lookup fails
transiently (a network error, not a "no rows" marker) and the subsequent
insert succeeds with the mock's merged row. -/
def c4LookupFailureEnv : SessionEnv :=
  { lookup := { data := none,
                error := some { message := "Network timeout - simulated failure",
                                code := "NETWORK" } },
    insertData := some (mockInsertSessionResult "student-1" 1),
    insertError := none }

/-- Claim C4 (code_bug): when the existing-session lookup fails transiently,
`getOrCreateHomeworkSession` performs NO retry of the lookup: its trace is
exactly one lookup immediately followed by the bare insert, and it returns
the freshly created session at index 0 — shadowing whatever session the
backend already holds, exactly the "progress not saved" bug the claim's
retry requirement is meant to prevent. -/
theorem c4_lookup_failure_goes_straight_to_insert :
    (getOrCreateHomeworkSession "student-1" (some 1) c4LookupFailureEnv).2 =
      [GatewayOp.lookupSession "student-1" 1, GatewayOp.insertSession "student-1" 1] ∧
    (getOrCreateHomeworkSession "student-1" (some 1) c4LookupFailureEnv).1 =
      some (mockInsertSessionResult "student-1" 1) ∧
    (mockInsertSessionResult "student-1" 1).current_question_index = 0 :=
  ⟨rfl, rfl, rfl⟩

/-- Claim C5 (code_bug): `updateHomeworkSessionProgress(session, 2)` run
against the mock gateway reports success yet persists nothing, and on
reload `getOrCreateHomeworkSession` returns `null` (its lookup chain throws
on the mock's builder, which has no second `.eq`), so the page's resumed
question index falls back to its initial 0 — the durably resumed index
regresses below 2 despite the successful update. -/
theorem c5_progress_update_not_persisted_regresses_to_zero :
    (runUpdateProgressMock mockSession.id 2 false emptyStore).1 = true ∧
    (runUpdateProgressMock mockSession.id 2 false emptyStore).2 = emptyStore ∧
    (runGetOrCreateMock mockSession.student_id (some mockSession.assignment_id)
        emptyStore).1.1 = none ∧
    resumedQuestionIndex
        (runGetOrCreateMock mockSession.student_id (some mockSession.assignment_id)
          emptyStore).1.1 = 0 ∧
    ¬ 2 ≤ resumedQuestionIndex
        (runGetOrCreateMock mockSession.student_id (some mockSession.assignment_id)
          emptyStore).1.1 :=
  ⟨rfl, rfl, rfl, rfl, by decide⟩

/-- Claim C6 counterexample: answer "A" is saved first and "B" second on the
same question, but "A"'s upsert applies to the store after "B"'s (the model
of "A's write resolves after B's"); with no in-flight tracking anywhere in
`saveHomeworkResponse`, the stale write lands last and the stored value is
"A", not "B" as the claim requires. -/
theorem c6_counterexample_stale_write_overwrites :
    recordGet
      (saveHomeworkResponse "student-1" "q1" (some 1) "A" shortQ (some "mock-session-1") none
        (saveHomeworkResponse "student-1" "q1" (some 1) "B" shortQ (some "mock-session-1") none
          emptyStore).store).store.responses "q1" = some "A" ∧
    ("A" : String) ≠ "B" :=
  ⟨rfl, by decide⟩

/-- Claim C6 as amended: `saveHomeworkResponse` performs one unconditional
upsert per call with no per-question in-flight tracking; after two
overlapping saves on the same question key, the stored value is that of the
save whose upsert applies to the store LAST (resolution order), regardless
of issue order — so a stale in-flight write that resolves after a newer one
overwrites it. -/
theorem c6_amended_last_applied_write_wins (sid1 sid2 qid a b : String) (m n : Int)
    (question : HomeworkQuestion) (sess1 sess2 : Option String) (st : MockStore) :
    recordGet
      (saveHomeworkResponse sid1 qid (some m) a question sess1 none
        (saveHomeworkResponse sid2 qid (some n) b question sess2 none st).store).store.responses
      qid = some a := by
  simp only [saveHomeworkResponse]
  exact recordGet_recordSet_self _ qid a

/-- Claim C7 (confirmed): for a tickbox question whose correct answer is the
array `correctAnswers`, the auto-grader marks a parsed response correct
exactly when the student's selected options and the correct answers denote
the same set (mutual inclusion of the two `Set`s) — hence independent of
selection order and with no partial credit — and the points earned are the
question's full points when correct and zero otherwise. -/
theorem c7_tickbox_grades_by_set_equality (question : HomeworkQuestion)
    (responseText : String) (studentAnswers correctAnswers : List String)
    (hty : question.question_type = "tickbox")
    (hca : question.correct_answer = CorrectAnswer.arr correctAnswers)
    (hparse : parseJsonStringArray responseText = some studentAnswers) :
    ((autoGrade question responseText).1 = some true ↔
        studentAnswers.toFinset = correctAnswers.toFinset) ∧
    (autoGrade question responseText).2 =
      if studentAnswers.toFinset = correctAnswers.toFinset then question.points else 0 := by
  have key := mutualContains_iff_toFinset_eq studentAnswers correctAnswers
  have hgrade : autoGrade question responseText =
      (some ((correctAnswers.all fun a => studentAnswers.contains a) &&
             (studentAnswers.all fun a => correctAnswers.contains a)),
       if ((correctAnswers.all fun a => studentAnswers.contains a) &&
           (studentAnswers.all fun a => correctAnswers.contains a)) then question.points
       else 0) := by
    simp only [autoGrade, hty, hca, hparse]
    rw [if_neg (by decide : ¬ ("tickbox" : String) = "multiple-choice"), if_pos trivial]
  rw [hgrade]
  constructor
  · simpa using key
  · exact iteCongrOfIff key question.points 0

/-- The tickbox question of the spec's worked example. -/
def tickQ : HomeworkQuestion :=
  { id := "q2", question_type := "tickbox", points := 2,
    correct_answer := CorrectAnswer.arr ["Tree", "Dog", "Flower"] }

/-- Witness for C7: the spec's example selection, serialized in a different
order than the correct set, satisfies every hypothesis and the grading
conclusion follows by applying the theorem. -/
theorem c7_tickbox_grades_by_set_equality_witness :
    tickQ.question_type = "tickbox" ∧
    tickQ.correct_answer = CorrectAnswer.arr ["Tree", "Dog", "Flower"] ∧
    parseJsonStringArray "[\"Flower\",\"Tree\",\"Dog\"]" = some ["Flower", "Tree", "Dog"] ∧
    (((autoGrade tickQ "[\"Flower\",\"Tree\",\"Dog\"]").1 = some true ↔
        (["Flower", "Tree", "Dog"] : List String).toFinset =
          (["Tree", "Dog", "Flower"] : List String).toFinset) ∧
      (autoGrade tickQ "[\"Flower\",\"Tree\",\"Dog\"]").2 =
        if (["Flower", "Tree", "Dog"] : List String).toFinset =
            (["Tree", "Dog", "Flower"] : List String).toFinset then tickQ.points else 0) :=
  ⟨rfl, rfl, by decide,
   c7_tickbox_grades_by_set_equality tickQ "[\"Flower\",\"Tree\",\"Dog\"]"
     ["Flower", "Tree", "Dog"] ["Tree", "Dog", "Flower"] rfl rfl (by decide)⟩

/-- Claim C8 (confirmed): for a multiple-choice question with a string
correct answer, the auto-grader marks a response correct exactly when the
response text, trimmed and lowercased, equals the correct answer trimmed
and lowercased, and the points earned are the question's points when
correct and zero otherwise. -/
theorem c8_multiple_choice_grades_normalized (question : HomeworkQuestion)
    (responseText ca : String)
    (hty : question.question_type = "multiple-choice")
    (hca : question.correct_answer = CorrectAnswer.str ca) :
    ((autoGrade question responseText).1 = some true ↔
        jsToLower (jsTrim responseText) = jsToLower (jsTrim ca)) ∧
    (autoGrade question responseText).2 =
      if jsToLower (jsTrim responseText) = jsToLower (jsTrim ca) then question.points
      else 0 := by
  have hgrade : autoGrade question responseText =
      (some (jsToLower (jsTrim responseText) == jsToLower (jsTrim ca)),
       if (jsToLower (jsTrim responseText) == jsToLower (jsTrim ca)) then question.points
       else 0) := by
    simp only [autoGrade, hty, hca]
    rw [if_pos trivial]
  rw [hgrade]
  constructor
  · simp [beq_iff_eq]
  · exact iteCongrOfIff (by simp [beq_iff_eq]) question.points 0

/-- The multiple-choice question of the spec's worked example. -/
def mcQ : HomeworkQuestion :=
  { id := "q1", question_type := "multiple-choice", points := 1,
    correct_answer := CorrectAnswer.str "Water and sunlight" }

/-- Witness for C8: the spec's example — response "water and sunlight"
against correct answer "Water and sunlight" — satisfies both hypotheses and
the grading conclusion follows by applying the theorem. -/
theorem c8_multiple_choice_grades_normalized_witness :
    mcQ.question_type = "multiple-choice" ∧
    mcQ.correct_answer = CorrectAnswer.str "Water and sunlight" ∧
    (((autoGrade mcQ "water and sunlight").1 = some true ↔
        jsToLower (jsTrim "water and sunlight") = jsToLower (jsTrim "Water and sunlight")) ∧
      (autoGrade mcQ "water and sunlight").2 =
        if jsToLower (jsTrim "water and sunlight") = jsToLower (jsTrim "Water and sunlight")
        then mcQ.points else 0) :=
  ⟨rfl, rfl,
   c8_multiple_choice_grades_normalized mcQ "water and sunlight" "Water and sunlight" rfl rfl⟩

/-- Claim C9 (confirmed): on a store with pairwise-distinct keys, calling
`saveHomeworkResponse` twice with the same (student, question, assignment,
answer) succeeds both times, the second call leaves the store exactly as
the first left it (no-op in effect), and the result holds exactly one
stored record under the question key, carrying the saved content —
idempotent upsert semantics, never a duplicate. -/
theorem c9_save_response_idempotent (sid qid text : String) (n : Int)
    (question : HomeworkQuestion) (sess : Option String) (st : MockStore)
    (h : (st.responses.map Prod.fst).Nodup) :
    (saveHomeworkResponse sid qid (some n) text question sess none
        (saveHomeworkResponse sid qid (some n) text question sess none st).store).store =
      (saveHomeworkResponse sid qid (some n) text question sess none st).store ∧
    (saveHomeworkResponse sid qid (some n) text question sess none st).success = true ∧
    (saveHomeworkResponse sid qid (some n) text question sess none
        (saveHomeworkResponse sid qid (some n) text question sess none st).store).success =
      true ∧
    countKey (saveHomeworkResponse sid qid (some n) text question sess none st).store.responses
      qid = 1 ∧
    recordGet (saveHomeworkResponse sid qid (some n) text question sess none st).store.responses
      qid = some text := by
  refine ⟨?_, rfl, rfl, ?_, ?_⟩ <;> simp only [saveHomeworkResponse]
  · rw [recordSet_idem]
  · exact countKey_recordSet st.responses qid text h
  · exact recordGet_recordSet_self st.responses qid text

/-- Witness for C9: a concrete double save on the empty store satisfies the
distinct-keys hypothesis and the conclusion follows by applying the
theorem. -/
theorem c9_save_response_idempotent_witness :
    ((emptyStore.responses.map Prod.fst).Nodup) ∧
    ((saveHomeworkResponse "student-1" "q1" (some 1) "my answer" shortQ (some "mock-session-1")
        none
        (saveHomeworkResponse "student-1" "q1" (some 1) "my answer" shortQ
          (some "mock-session-1") none emptyStore).store).store =
      (saveHomeworkResponse "student-1" "q1" (some 1) "my answer" shortQ (some "mock-session-1")
        none emptyStore).store ∧
    (saveHomeworkResponse "student-1" "q1" (some 1) "my answer" shortQ (some "mock-session-1")
        none emptyStore).success = true ∧
    (saveHomeworkResponse "student-1" "q1" (some 1) "my answer" shortQ (some "mock-session-1")
        none
        (saveHomeworkResponse "student-1" "q1" (some 1) "my answer" shortQ
          (some "mock-session-1") none emptyStore).store).success = true ∧
    countKey (saveHomeworkResponse "student-1" "q1" (some 1) "my answer" shortQ
        (some "mock-session-1") none emptyStore).store.responses "q1" = 1 ∧
    recordGet (saveHomeworkResponse "student-1" "q1" (some 1) "my answer" shortQ
        (some "mock-session-1") none emptyStore).store.responses "q1" = some "my answer") :=
  ⟨by decide,
   c9_save_response_idempotent "student-1" "q1" "my answer" 1 shortQ (some "mock-session-1")
     emptyStore (by decide)⟩

/-- Claim C10 (confirmed): `getStudentHomeworkResponsesMap` returns the same
map for every (studentId, assignmentId) queried over a fixed store —
its arguments are never read — and the store effect of a save depends only
on the question id and the response text (the mock upsert keys the record
by question id alone), so every student's and assignment's responses share
one map. -/
theorem c10_responses_map_independent_of_identity (store : MockStore) (s1 s2 : String)
    (a1 a2 : Option Int) (sid1 sid2 qid text : String) (n1 n2 : Int)
    (question : HomeworkQuestion) (sess1 sess2 : Option String) :
    getStudentHomeworkResponsesMap s1 a1 store = getStudentHomeworkResponsesMap s2 a2 store ∧
    (saveHomeworkResponse sid1 qid (some n1) text question sess1 none store).store.responses =
      (saveHomeworkResponse sid2 qid (some n2) text question sess2 none store).store.responses :=
  ⟨rfl, rfl⟩
